import Mathlib

/-!
Verification of the `pyecobee` client (`src/pyecobee/__init__.py`).

The development shallowly embeds the parts of the client that the claims
are about: the JSON values exchanged with the ecobee service, the
`Ecobee._request` response-classification pipeline, the token-lifecycle
operations (`request_pin`, `request_tokens`), the device-registry fetch
(`get_thermostats`), the update payload builders (`post_update`,
`send_message`, `set_fan_mode`, `set_hold_temp`) and the credential
persistence (`_write_config`).

Python `dict`s become association lists with first-match lookup, Python
exceptions become `Except` / explicit outcome constructors, and the HTTP
transport is abstracted as the observable result of one request
(`HttpResult`): a timeout, a connectivity error, or a received response
with a status code and a parse result for its body (`none` models a body
that is not valid JSON).
-/

namespace Pyecobee

/-- JSON values, as produced by `response.json()` / `json` module.
Objects are association lists; Python dicts have unique keys, and
lookup takes the first match. -/
inductive Json where
  | null : Json
  | boolean : Bool → Json
  | num : Int → Json
  | str : String → Json
  | arr : List Json → Json
  | obj : List (String × Json) → Json

/-- `d.get(key)` / `d[key]` on a Python value: `some` for a present key of
a dict, `none` when the key is absent or the value is not a dict (in the
source the latter raises `TypeError`, which every use site catches). -/
def Json.getField : Json → String → Option Json
  | Json.obj fields, key => (fields.find? (fun kv => kv.1 = key)).map (fun kv => kv.2)
  | _, _ => none

/-- `d.get(key, default)`. -/
def Json.getD (j : Json) (key : String) (default : Json) : Json :=
  (j.getField key).getD default

/-- Python `==` between a JSON value and a string literal. -/
def Json.eqStrLit : Json → String → Bool
  | Json.str s, t => s = t
  | _, _ => false

/-- Python `==` between a JSON value and an int literal; Python booleans
compare equal to 0/1 (`True == 1`). -/
def Json.eqIntLit : Json → Int → Bool
  | Json.num n, m => n = m
  | Json.boolean b, m => (if b then (1 : Int) else 0) = m
  | _, _ => false

/-- `v == lit` where `v` may be absent (`None == lit` is `False`). -/
def optEqStrLit (v : Option Json) (lit : String) : Bool :=
  v.any (fun j => j.eqStrLit lit)

/-- `v == lit` for an optional value and an int literal. -/
def optEqIntLit (v : Option Json) (lit : Int) : Bool :=
  v.any (fun j => j.eqIntLit lit)

/-- The observable result of `requests.request` for one call: a timeout
(`Timeout`), another connectivity failure (`RequestException`), or a
received HTTP response carrying its status code and the result of JSON
parsing its body (`none` = the body is not valid JSON). -/
inductive HttpResult where
  | timeout : HttpResult
  | connectionError : HttpResult
  | response : Nat → Option Json → HttpResult

/-- The exceptions `_request` can raise to its caller: the typed errors
from `errors.py` (`InvalidTokenError`, `ExpiredTokenError`), and the
uncaught `AttributeError` raised inside the `HTTPError` handler by
calling `.get` on a non-dict error payload. -/
inductive RaisedError where
  | invalidTokenError : RaisedError
  | expiredTokenError : RaisedError
  | attributeError : RaisedError
  deriving DecidableEq, Repr

/-- The classified outcome of one `_request` call:
`success payload` (status in range, parsed body returned),
`raiseInvalidToken` / `raiseExpiredToken` (the raised typed errors),
`raiseAttributeError` (the uncaught `AttributeError` from a `.get` on a
non-dict error payload), and `failure msg` (logged and absorbed:
`_request` returns `None`). -/
inductive RequestOutcome where
  | success : Json → RequestOutcome
  | raiseInvalidToken : RequestOutcome
  | raiseExpiredToken : RequestOutcome
  | raiseAttributeError : RequestOutcome
  | failure : String → RequestOutcome

/-- `response.raise_for_status()` raises `HTTPError` exactly for
4xx and 5xx status codes. -/
def isHttpErrorStatus (status : Nat) : Bool :=
  400 ≤ status && status < 600

/-- Python `d.get(key)`: `.get` is a dict method, so a non-dict receiver
raises `AttributeError` (the outer `none`); on a dict the result is the
value for the key, or Python `None` (the inner `none`) when absent. -/
def Json.pyGetOpt : Json → String → Option (Option Json)
  | Json.obj fields, key => some ((fields.find? (fun kv => kv.1 = key)).map (fun kv => kv.2))
  | _, _ => none

/-- Python `d.get(key, default)`: `AttributeError` (`none`) on a
non-dict receiver, otherwise the value for the key or the default. -/
def Json.pyGetD (j : Json) (key : String) (default : Json) : Option Json :=
  (j.pyGetOpt key).map (fun v => v.getD default)

/-- The `status.code` lookup of the 500 error branch:
`json_payload.get("status", {}).get("code")`. The outer `none` is the
uncaught `AttributeError` raised when `json_payload`, or its `status`
value, is not a dict; otherwise `some` of the looked-up code (itself
`none` when absent). -/
def statusCodeLookup (jsonPayload : Json) : Option (Option Json) :=
  match jsonPayload.pyGetD "status" (Json.obj []) with
  | none => none
  | some statusVal => statusVal.pyGetOpt "code"

/-- The `status.message` lookup of the error branch, with its default:
`json_payload.get("status", {}).get("message", "Unknown error")`. The
source only evaluates it after the `status.code` lookup succeeded, so a
total reading agrees with Python there. -/
def statusMessage (jsonPayload : Json) : Json :=
  (jsonPayload.getD "status" (Json.obj [])).getD "message" (Json.str "Unknown error")

/-- String rendering used only to build the logged failure messages. -/
def describeJson : Json → String
  | Json.null => "None"
  | Json.boolean b => if b then "True" else "False"
  | Json.num n => toString n
  | Json.str s => s
  | Json.arr _ => "[...]"
  | Json.obj _ => "{...}"

/-- `Ecobee._request` (src/pyecobee/__init__.py:403-493), as the
classification of one transport result.

* Timeout / other `RequestException` are logged and absorbed
  (`return None` at the end).
* A received response first passes `raise_for_status`; in the success
  range `response.json()` is returned, and a `JSONDecodeError` there is
  caught by the outer `except (RequestException, JSONDecodeError)` and
  absorbed.
* On `HTTPError` the body is re-parsed; a parse failure leaves
  `json_payload = {}`.
* `auth_request`: at status 400 the source evaluates
  `json_payload.get("error")` (the `and` short-circuits on the status
  first) — an uncaught `AttributeError` on a non-dict payload; the value
  `"invalid_grant"` raises `InvalidTokenError`, everything else at 400,
  and any other error status (where `.get` is never evaluated), is
  logged and absorbed.
* otherwise: status 500 evaluates
  `json_payload.get("status", {}).get("code")` — an uncaught
  `AttributeError` when `json_payload`, or its `status` value, is not a
  dict; code 1 or 16 raises `InvalidTokenError`, 14 raises
  `ExpiredTokenError`, anything else is logged (message from
  `status.message`, default "Unknown error") and absorbed; any other
  error status is logged and absorbed without touching the payload. -/
def requestOutcome (authRequest : Bool) (result : HttpResult) : RequestOutcome :=
  match result with
  | HttpResult.timeout => RequestOutcome.failure "Connection to ecobee timed out"
  | HttpResult.connectionError => RequestOutcome.failure "Error connecting to ecobee"
  | HttpResult.response status body =>
    if isHttpErrorStatus status then
      let jsonPayload := body.getD (Json.obj [])
      if authRequest then
        if status = 400 then
          match jsonPayload.pyGetOpt "error" with
          | none => RequestOutcome.raiseAttributeError
          | some errVal =>
            if optEqStrLit errVal "invalid_grant" then
              RequestOutcome.raiseInvalidToken
            else
              RequestOutcome.failure "Error requesting authorization from ecobee"
        else
          RequestOutcome.failure "Error requesting authorization from ecobee"
      else if status = 500 then
        match statusCodeLookup jsonPayload with
        | none => RequestOutcome.raiseAttributeError
        | some code =>
          if optEqIntLit code 1 || optEqIntLit code 16 then
            RequestOutcome.raiseInvalidToken
          else if optEqIntLit code 14 then
            RequestOutcome.raiseExpiredToken
          else
            RequestOutcome.failure (describeJson (statusMessage jsonPayload))
      else
        RequestOutcome.failure "Error from ecobee"
    else
      match body with
      | some payload => RequestOutcome.success payload
      | none => RequestOutcome.failure "Error connecting to ecobee"

/-- `_request` as seen by its callers: raised errors (typed token
errors, or the uncaught `AttributeError`) on the left, otherwise the
returned value — the parsed payload on success, `None` (here
`Option.none`) for every absorbed failure. -/
def runRequest (authRequest : Bool) (r : HttpResult) : Except RaisedError (Option Json) :=
  match requestOutcome authRequest r with
  | RequestOutcome.success payload => Except.ok (some payload)
  | RequestOutcome.raiseInvalidToken => Except.error RaisedError.invalidTokenError
  | RequestOutcome.raiseExpiredToken => Except.error RaisedError.expiredTokenError
  | RequestOutcome.raiseAttributeError => Except.error RaisedError.attributeError
  | RequestOutcome.failure _ => Except.ok none

/-- Modelled from the spec: `pyecobee/const.py` is not under `src/`; the
spec fixes the persisted key-value store to "an opaque key-value mapping
with fixed key names: api key, access token, refresh token,
authorization code, notifications-enabled flag". The five constants are
modelled as five distinct key strings. -/
def ECOBEE_API_KEY : String := "API_KEY"

/-- Modelled from the spec: config key for the access token. -/
def ECOBEE_ACCESS_TOKEN : String := "ACCESS_TOKEN"

/-- Modelled from the spec: config key for the refresh token. -/
def ECOBEE_REFRESH_TOKEN : String := "REFRESH_TOKEN"

/-- Modelled from the spec: config key for the authorization code. -/
def ECOBEE_AUTHORIZATION_CODE : String := "AUTHORIZATION_CODE"

/-- Modelled from the spec: config key for the notifications flag. -/
def ECOBEE_OPTIONS_NOTIFICATIONS : String := "NOTIFICATIONS"

/-- The mutable fields of one `Ecobee` instance that the claims touch.
Python `None` is modelled as `Json.null` (the `json` module identifies
the two). `config` is the persisted key-value store: `none` until
`_write_config` first runs (for the in-memory path `self.config` may
also hold the loaded config — the claims only concern what
`_write_config` writes, so `config` records the last written dict). -/
structure EcobeeState where
  thermostats : Json := Json.null
  api_key : Json := Json.null
  pin : Json := Json.null
  authorization_code : Json := Json.null
  access_token : Json := Json.null
  refresh_token : Json := Json.null
  include_notifications : Bool := false
  config : Option (List (String × Json)) := none

/-- Python `str` of a boolean: `str(True) = "True"`. -/
def pyBoolStr (b : Bool) : String :=
  if b then "True" else "False"

/-- The dict built by `Ecobee._write_config`
(src/pyecobee/__init__.py:69-80): exactly five keys, in source order. -/
def write_config_dict (s : EcobeeState) : List (String × Json) :=
  [(ECOBEE_API_KEY, s.api_key),
   (ECOBEE_ACCESS_TOKEN, s.access_token),
   (ECOBEE_REFRESH_TOKEN, s.refresh_token),
   (ECOBEE_AUTHORIZATION_CODE, s.authorization_code),
   (ECOBEE_OPTIONS_NOTIFICATIONS, Json.str (pyBoolStr s.include_notifications))]

/-- `Ecobee._write_config`: persists `write_config_dict` (to the file or
to `self.config`; both are the `config` field here). -/
def write_config (s : EcobeeState) : EcobeeState :=
  { s with config := some (write_config_dict s) }

/-- Lookup in a persisted config dict. -/
def configLookup (c : List (String × Json)) (key : String) : Option Json :=
  (c.find? (fun kv => kv.1 = key)).map (fun kv => kv.2)

/-- `Ecobee.request_pin` (src/pyecobee/__init__.py:82-111). The transport
result `r` is the response to the auth-flow GET. The `try` block assigns
`authorization_code` from `response["code"]` and only then reads
`response["ecobeePin"]`; `KeyError`/`TypeError` anywhere in the block is
caught and yields `False`. A raised `InvalidTokenError` from `_request`
is not caught and propagates. -/
def request_pin (s : EcobeeState) (r : HttpResult) : Except RaisedError (Bool × EcobeeState) :=
  match runRequest true r with
  | Except.error e => Except.error e
  | Except.ok resp =>
    match (resp.getD Json.null).getField "code" with
    | none => Except.ok (false, s)
    | some c =>
      let s1 := { s with authorization_code := c }
      match (resp.getD Json.null).getField "ecobeePin" with
      | none => Except.ok (false, s1)
      | some p => Except.ok (true, { s1 with pin := p })

/-- `Ecobee.request_tokens` (src/pyecobee/__init__.py:113-140): on a
success payload with both tokens, assigns them, persists via
`_write_config`, then clears `pin`; a missing field aborts the block
(assignments made so far stick) and yields `False`. -/
def request_tokens (s : EcobeeState) (r : HttpResult) : Except RaisedError (Bool × EcobeeState) :=
  match runRequest true r with
  | Except.error e => Except.error e
  | Except.ok resp =>
    match (resp.getD Json.null).getField "access_token" with
    | none => Except.ok (false, s)
    | some tokA =>
      let s1 := { s with access_token := tokA }
      match (resp.getD Json.null).getField "refresh_token" with
      | none => Except.ok (false, s1)
      | some tokR =>
        let s2 := write_config { s1 with refresh_token := tokR }
        Except.ok (true, { s2 with pin := Json.null })

/-- `Ecobee.get_thermostats` (src/pyecobee/__init__.py:170-197): on a
payload with `thermostatList` the registry is replaced wholesale;
`KeyError`/`TypeError` (missing key, or `None` payload) yields `False`
with the state untouched. Raised `InvalidTokenError` /
`ExpiredTokenError` from `_request` are not caught here and propagate. -/
def get_thermostats (s : EcobeeState) (r : HttpResult) : Except RaisedError (Bool × EcobeeState) :=
  match runRequest false r with
  | Except.error e => Except.error e
  | Except.ok resp =>
    match (resp.getD Json.null).getField "thermostatList" with
    | none => Except.ok (false, s)
    | some tl => Except.ok (true, { s with thermostats := tl })

/-- Python truthiness, used by `post_update`'s `if props:` / `if funcs:`
checks (an empty dict or list is falsy). -/
def Json.pyTruthy : Json → Bool
  | Json.null => false
  | Json.boolean b => b
  | Json.num n => !(n == 0)
  | Json.str s => !(s == "")
  | Json.arr xs => !xs.isEmpty
  | Json.obj fields => !fields.isEmpty

/-- `self.thermostats[index]["identifier"]` in `post_update`: `some` when
the registry is a list, the index is in range and the record has an
`identifier` key; `none` models the uncaught
`TypeError`/`IndexError`/`KeyError` otherwise. -/
def registryIdentifier (s : EcobeeState) (index : Nat) : Option Json :=
  match s.thermostats with
  | Json.arr xs => (xs.get? index).bind (fun t => t.getField "identifier")
  | _ => none

/-- The body built by `Ecobee.post_update` (src/pyecobee/__init__.py:215-237)
and handed to `_request` as the POST body: selection-by-identifier, then
`thermostat` when `props` is truthy, then `functions` when `funcs` is
truthy. `none` models the uncaught fault when the registry indexing
fails. -/
def post_update_body (s : EcobeeState) (index : Nat)
    (props funcs : Option Json) : Option Json :=
  match registryIdentifier s index with
  | none => none
  | some ident =>
    let base := [("selection",
      Json.obj [("selectionType", Json.str "thermostats"),
                ("selectionMatch", ident)])]
    let withProps :=
      match props with
      | some p => if p.pyTruthy then base ++ [("thermostat", p)] else base
      | none => base
    let withFuncs :=
      match funcs with
      | some f => if f.pyTruthy then withProps ++ [("functions", f)] else withProps
      | none => withProps
    some (Json.obj withFuncs)

/-- Observable outcome of calling `post_update` through Python keyword
binding: the transmitted body, a `TypeError` for a keyword argument that
is not a parameter of `post_update` (whose keyword-only parameters are
exactly `props` and `funcs`), or the registry-indexing fault. -/
inductive UpdateCall where
  | transmitted : Json → UpdateCall
  | typeErrorUnexpectedKeyword : String → UpdateCall
  | registryFault : UpdateCall

/-- A Python call `self.post_update(index, label, **kwargs)`: keyword
binding against the signature `post_update(self, index, log_msg_action,
*, props=None, funcs=None)` rejects any other keyword with `TypeError`
before the body is ever built. -/
def post_update_call (s : EcobeeState) (index : Nat)
    (kwargs : List (String × Json)) : UpdateCall :=
  match kwargs.find? (fun kv => !(kv.1 == "props" || kv.1 == "funcs")) with
  | some kv => UpdateCall.typeErrorUnexpectedKeyword kv.1
  | none =>
    let props := (kwargs.find? (fun kv => kv.1 = "props")).map (fun kv => kv.2)
    let funcs := (kwargs.find? (fun kv => kv.1 = "funcs")).map (fun kv => kv.2)
    match post_update_body s index props funcs with
    | some body => UpdateCall.transmitted body
    | none => UpdateCall.registryFault

/-- Python `message[:500]` on a string: the first 500 characters. -/
def pyTake500 (message : String) : String :=
  String.mk (message.toList.take 500)

/-- The single function object built by `Ecobee.send_message`
(src/pyecobee/__init__.py:365-371). -/
def send_message_func (message : String) : Json :=
  Json.obj [("type", Json.str "sendMessage"),
            ("params", Json.obj [("text", Json.str (pyTake500 message))])]

/-- `Ecobee.send_message`: posts the `sendMessage` function through
`post_update` (keyword `funcs`). -/
def send_message (s : EcobeeState) (index : Nat) (message : String) : UpdateCall :=
  post_update_call s index [("funcs", Json.arr [send_message_func message])]

/-- The function object built by `Ecobee.set_fan_mode`
(src/pyecobee/__init__.py:253-276): a `setHold` with
`coolHoldTemp = int(cool_temp * 10)`, `heatHoldTemp = int(heat_temp * 10)`
and the fan mode. -/
def set_fan_mode_func (fan_mode : String) (cool_temp heat_temp : Int)
    (hold_type : String) : Json :=
  Json.obj [("type", Json.str "setHold"),
            ("params", Json.obj [("holdType", Json.str hold_type),
                                 ("coolHoldTemp", Json.num (cool_temp * 10)),
                                 ("heatHoldTemp", Json.num (heat_temp * 10)),
                                 ("fan", Json.str fan_mode)])]

/-- `Ecobee.set_fan_mode`: posts its `setHold` function through
`post_update` (keyword `funcs`). -/
def set_fan_mode (s : EcobeeState) (index : Nat) (fan_mode : String)
    (cool_temp heat_temp : Int) (hold_type : String) : UpdateCall :=
  post_update_call s index
    [("funcs", Json.arr [set_fan_mode_func fan_mode cool_temp heat_temp hold_type])]

/-- The function object built by `Ecobee.set_hold_temp`
(src/pyecobee/__init__.py:278-297), including the `holdHours` parameter
added when `hold_type == "holdHours"`. -/
def set_hold_temp_func (cool_temp heat_temp : Int)
    (hold_type hold_hours : String) : Json :=
  let params := [("holdType", Json.str hold_type),
                 ("coolHoldTemp", Json.num (cool_temp * 10)),
                 ("heatHoldTemp", Json.num (heat_temp * 10))]
  let params :=
    if hold_type = "holdHours" then params ++ [("holdHours", Json.str hold_hours)]
    else params
  Json.obj [("type", Json.str "setHold"), ("params", Json.obj params)]

/-- `Ecobee.set_hold_temp`: the source calls
`self.post_update(index, "set hold temp", functions=[f])` — the keyword
is `functions`, but `post_update` has no such parameter (its keyword-only
parameters are `props` and `funcs`), so keyword binding raises
`TypeError` on every call. -/
def set_hold_temp (s : EcobeeState) (index : Nat) (cool_temp heat_temp : Int)
    (hold_type hold_hours : String) : UpdateCall :=
  post_update_call s index
    [("functions", Json.arr [set_hold_temp_func cool_temp heat_temp hold_type hold_hours])]

/-! ## Helper lemmas -/

/-- A JSON value compares equal (in Python's sense) to at most one int
literal. -/
lemma eqIntLit_unique {j : Json} {a b : Int}
    (ha : j.eqIntLit a = true) (hb : j.eqIntLit b = true) : a = b := by
  cases j <;> simp [Json.eqIntLit] at ha hb <;> omega

/-- `optEqIntLit` version of `eqIntLit_unique`. -/
lemma optEqIntLit_unique {v : Option Json} {a b : Int}
    (ha : optEqIntLit v a = true) (hb : optEqIntLit v b = true) : a = b := by
  cases v with
  | none => simp [optEqIntLit] at ha
  | some j =>
    simp [optEqIntLit, Option.any] at ha hb
    exact eqIntLit_unique ha hb

/-- When `d.get(key)` does not raise (the receiver is a dict), it agrees
with the subscript lookup `getField`. -/
lemma pyGetOpt_eq_getField {j : Json} {key : String}
    (h : (j.pyGetOpt key).isSome = true) :
    j.pyGetOpt key = some (j.getField key) := by
  cases j <;> simp [Json.pyGetOpt, Json.getField] at h ⊢

/-! ## Claims -/

/-- C1 counterexample: at a non-auth 500 whose error body's `status`
field is not a dict, the `status.code` lookup raises an uncaught
`AttributeError` that propagates out of `_request` — not the absorbed
`Failure` ("Unknown error", since the code is absent) the claim
predicts. -/
theorem nonauth_500_nondict_status_raises :
    requestOutcome false (HttpResult.response 500
        (some (Json.obj [("status", Json.num 5)]))) =
      RequestOutcome.raiseAttributeError ∧
    runRequest false (HttpResult.response 500
        (some (Json.obj [("status", Json.num 5)]))) =
      Except.error RaisedError.attributeError ∧
    requestOutcome false (HttpResult.response 500
        (some (Json.obj [("status", Json.num 5)]))) ≠
      RequestOutcome.failure "Unknown error" := by
  exact ⟨rfl, rfl, fun hx => RequestOutcome.noConfusion hx⟩

/-- C1 (amended): for every HTTP response received outside the auth flow
with status 500 whose `status.code` lookup succeeds — the error payload
is a dict whose `status` value, if present, is a dict; otherwise the
lookup raises an uncaught `AttributeError` — classification raises
`InvalidTokenError` when the code is 1 or 16, raises `ExpiredTokenError`
when it is 14, and for any other or absent code produces an absorbed
`Failure` (logged, `_request` returns `None`, nothing raised) whose
message is built from `status.message` with default "Unknown error". -/
theorem nonauth_500_classification (body : Option Json) (code : Option Json)
    (hcode : statusCodeLookup (body.getD (Json.obj [])) = some code) :
    ((optEqIntLit code 1 = true ∨ optEqIntLit code 16 = true) →
      requestOutcome false (HttpResult.response 500 body) =
        RequestOutcome.raiseInvalidToken) ∧
    (optEqIntLit code 14 = true →
      requestOutcome false (HttpResult.response 500 body) =
        RequestOutcome.raiseExpiredToken) ∧
    ((optEqIntLit code 1 = false ∧
      optEqIntLit code 16 = false ∧
      optEqIntLit code 14 = false) →
      requestOutcome false (HttpResult.response 500 body) =
        RequestOutcome.failure (describeJson (statusMessage (body.getD (Json.obj []))))) := by
  refine ⟨?_, ?_, ?_⟩
  · rintro (h | h) <;> simp [requestOutcome, isHttpErrorStatus, hcode, h]
  · intro h
    have h1 : optEqIntLit code 1 = false := by
      by_contra hc
      simp only [Bool.not_eq_false] at hc
      exact absurd (optEqIntLit_unique h hc) (by decide)
    have h16 : optEqIntLit code 16 = false := by
      by_contra hc
      simp only [Bool.not_eq_false] at hc
      exact absurd (optEqIntLit_unique h hc) (by decide)
    simp [requestOutcome, isHttpErrorStatus, hcode, h, h1, h16]
  · rintro ⟨h1, h16, h14⟩
    simp [requestOutcome, isHttpErrorStatus, hcode, h1, h16, h14]

/-- C1 witness: the three branches at concrete error bodies. -/
theorem nonauth_500_classification_witness :
    (requestOutcome false (HttpResult.response 500
        (some (Json.obj [("status", Json.obj [("code", Json.num 16)])]))) =
      RequestOutcome.raiseInvalidToken) ∧
    (requestOutcome false (HttpResult.response 500
        (some (Json.obj [("status", Json.obj [("code", Json.num 14)])]))) =
      RequestOutcome.raiseExpiredToken) ∧
    (requestOutcome false (HttpResult.response 500
        (some (Json.obj [("status", Json.obj [("code", Json.num 3),
          ("message", Json.str "Processing error")])]))) =
      RequestOutcome.failure "Processing error") := by
  refine ⟨?_, ?_, ?_⟩
  · exact (nonauth_500_classification
      (some (Json.obj [("status", Json.obj [("code", Json.num 16)])]))
      (some (Json.num 16)) rfl).1 (Or.inr rfl)
  · exact (nonauth_500_classification
      (some (Json.obj [("status", Json.obj [("code", Json.num 14)])]))
      (some (Json.num 14)) rfl).2.1 rfl
  · exact (nonauth_500_classification
      (some (Json.obj [("status", Json.obj [("code", Json.num 3),
        ("message", Json.str "Processing error")])]))
      (some (Json.num 3)) rfl).2.2 ⟨rfl, rfl, rfl⟩

/-- C2 counterexample: at auth-flow status 400 with a non-dict parsed
body (here `[]`), `json_payload.get("error")` raises an uncaught
`AttributeError` that propagates out of `_request` — not the absorbed
`Failure` ("logged and not raised") the claim predicts. -/
theorem auth_400_nondict_body_raises :
    requestOutcome true (HttpResult.response 400 (some (Json.arr []))) =
      RequestOutcome.raiseAttributeError ∧
    runRequest true (HttpResult.response 400 (some (Json.arr []))) =
      Except.error RaisedError.attributeError ∧
    requestOutcome true (HttpResult.response 400 (some (Json.arr []))) ≠
      RequestOutcome.failure "Error requesting authorization from ecobee" := by
  exact ⟨rfl, rfl, fun hx => RequestOutcome.noConfusion hx⟩

/-- C2 (amended): during an auth-flow request, a received non-success
response — provided that when the status is 400 the parsed error body is
a dict, since otherwise `json_payload.get("error")` raises an uncaught
`AttributeError` — raises `InvalidTokenError` exactly when the status is
400 and the body's `error` field equals "invalid_grant"; every other
such response is an absorbed `Failure` (logged, nothing raised). -/
theorem auth_flow_classification (status : Nat) (body : Option Json)
    (h : isHttpErrorStatus status = true)
    (hdict : status = 400 → ((body.getD (Json.obj [])).pyGetOpt "error").isSome = true) :
    (requestOutcome true (HttpResult.response status body) =
        RequestOutcome.raiseInvalidToken ↔
      (status = 400 ∧
        optEqStrLit ((body.getD (Json.obj [])).getField "error") "invalid_grant" = true)) ∧
    (¬(status = 400 ∧
        optEqStrLit ((body.getD (Json.obj [])).getField "error") "invalid_grant" = true) →
      requestOutcome true (HttpResult.response status body) =
        RequestOutcome.failure "Error requesting authorization from ecobee") := by
  by_cases h400 : status = 400
  · subst h400
    have hget : (body.getD (Json.obj [])).pyGetOpt "error" =
        some ((body.getD (Json.obj [])).getField "error") :=
      pyGetOpt_eq_getField (hdict rfl)
    by_cases hgrant :
        optEqStrLit ((body.getD (Json.obj [])).getField "error") "invalid_grant" = true
    · have hout : requestOutcome true (HttpResult.response 400 body) =
          RequestOutcome.raiseInvalidToken := by
        simp [requestOutcome, h, hget, hgrant]
      exact ⟨⟨fun _ => ⟨rfl, hgrant⟩, fun _ => hout⟩, fun hc => absurd ⟨rfl, hgrant⟩ hc⟩
    · simp only [Bool.not_eq_true] at hgrant
      have hout : requestOutcome true (HttpResult.response 400 body) =
          RequestOutcome.failure "Error requesting authorization from ecobee" := by
        simp [requestOutcome, h, hget, hgrant]
      refine ⟨⟨fun hx => absurd (hout.symm.trans hx)
        (fun hy => RequestOutcome.noConfusion hy), ?_⟩, fun _ => hout⟩
      rintro ⟨-, hg⟩
      exact Bool.noConfusion (hg.symm.trans hgrant)
  · have hout : requestOutcome true (HttpResult.response status body) =
        RequestOutcome.failure "Error requesting authorization from ecobee" := by
      simp [requestOutcome, h, h400]
    refine ⟨⟨fun hx => absurd (hout.symm.trans hx)
      (fun hy => RequestOutcome.noConfusion hy), ?_⟩, fun _ => hout⟩
    rintro ⟨h4, -⟩
    exact absurd h4 h400

/-- C2 witness: status 400 with body `{"error":"invalid_grant"}` raises
`InvalidTokenError`; status 401 with the same body, and status 400 with a
different error, are absorbed failures. -/
theorem auth_flow_classification_witness :
    (requestOutcome true (HttpResult.response 400
        (some (Json.obj [("error", Json.str "invalid_grant")]))) =
      RequestOutcome.raiseInvalidToken) ∧
    (requestOutcome true (HttpResult.response 401
        (some (Json.obj [("error", Json.str "invalid_grant")]))) =
      RequestOutcome.failure "Error requesting authorization from ecobee") ∧
    (requestOutcome true (HttpResult.response 400
        (some (Json.obj [("error", Json.str "slow_down")]))) =
      RequestOutcome.failure "Error requesting authorization from ecobee") := by
  refine ⟨?_, ?_, ?_⟩
  · exact (auth_flow_classification 400
      (some (Json.obj [("error", Json.str "invalid_grant")])) (by decide)
      (fun _ => rfl)).1.mpr ⟨rfl, rfl⟩
  · exact (auth_flow_classification 401
      (some (Json.obj [("error", Json.str "invalid_grant")])) (by decide)
      (fun h4 => absurd h4 (by decide))).2
      (by rintro ⟨hc, -⟩; exact absurd hc (by decide))
  · exact (auth_flow_classification 400
      (some (Json.obj [("error", Json.str "slow_down")])) (by decide)
      (fun _ => rfl)).2
      (by rintro ⟨-, hc⟩; exact absurd hc (by decide))

/-- C8: a received non-success response whose body is not valid JSON is
classified exactly as if the error payload were the empty object — the
parse failure never propagates; in particular an auth-flow 400 response
with an unparsable body is an absorbed `Failure`, not
`InvalidTokenError`. -/
theorem unparsable_error_body (authRequest : Bool) (status : Nat)
    (h : isHttpErrorStatus status = true) :
    requestOutcome authRequest (HttpResult.response status none) =
      requestOutcome authRequest (HttpResult.response status (some (Json.obj []))) ∧
    requestOutcome true (HttpResult.response 400 none) =
      RequestOutcome.failure "Error requesting authorization from ecobee" := by
  constructor
  · simp [requestOutcome, h]
  · rfl

/-- C8 witness. -/
theorem unparsable_error_body_witness :
    (requestOutcome true (HttpResult.response 400 none) =
      requestOutcome true (HttpResult.response 400 (some (Json.obj [])))) ∧
    (requestOutcome true (HttpResult.response 400 none) =
      RequestOutcome.failure "Error requesting authorization from ecobee") := by
  exact unparsable_error_body true 400 (by decide)

/-! ## Concrete test data -/

/-- A freshly constructed client holding only an API key. -/
def freshClient : EcobeeState := { api_key := Json.str "APIKEY" }

/-- The mocked `request_pin` success payload of the round-trip scenario. -/
def pinRequestPayload : Json :=
  Json.obj [("code", Json.str "AUTH123"), ("ecobeePin", Json.str "ABCD-EFGH")]

/-- The mocked `request_tokens` success payload of the round-trip
scenario. -/
def tokenRequestPayload : Json :=
  Json.obj [("access_token", Json.str "AT1"), ("refresh_token", Json.str "RT1")]

/-- A malformed `request_pin` success payload: `code` present,
`ecobeePin` absent. -/
def pinPayloadMissingPin : Json := Json.obj [("code", Json.str "AUTH123")]

/-- A 500 error body carrying `status.code = 14` (expired token). -/
def code14Body : Json := Json.obj [("status", Json.obj [("code", Json.num 14)])]

/-- A client whose registry holds one thermostat record. -/
def regClient : EcobeeState :=
  { thermostats := Json.arr [Json.obj [("identifier", Json.str "T1")]] }

/-- A 600-character message. -/
def msg600 : String := String.mk (List.replicate 600 'a')

/-- C3: `request_pin` then `request_tokens` on the mocked payloads
persists a config whose access token is AT1, refresh token RT1,
authorization code AUTH123 — and whose keys are exactly the five config
keys, so no PIN is persisted — and clears the client's `pin` field. -/
theorem pin_token_round_trip :
    ∃ s1 s2 cfg,
      request_pin freshClient (HttpResult.response 200 (some pinRequestPayload)) =
        Except.ok (true, s1) ∧
      s1.pin = Json.str "ABCD-EFGH" ∧
      request_tokens s1 (HttpResult.response 200 (some tokenRequestPayload)) =
        Except.ok (true, s2) ∧
      s2.config = some cfg ∧
      configLookup cfg ECOBEE_ACCESS_TOKEN = some (Json.str "AT1") ∧
      configLookup cfg ECOBEE_REFRESH_TOKEN = some (Json.str "RT1") ∧
      configLookup cfg ECOBEE_AUTHORIZATION_CODE = some (Json.str "AUTH123") ∧
      cfg.map Prod.fst =
        [ECOBEE_API_KEY, ECOBEE_ACCESS_TOKEN, ECOBEE_REFRESH_TOKEN,
         ECOBEE_AUTHORIZATION_CODE, ECOBEE_OPTIONS_NOTIFICATIONS] ∧
      s2.pin = Json.null := by
  exact ⟨_, _, _, rfl, rfl, rfl, rfl, rfl, rfl, rfl, rfl, rfl⟩

/-- C4 counterexample: a success payload with `code` but without
`ecobeePin` makes `request_pin` return false, yet `authorization_code`
is mutated before the failure — the credential state is not left
unchanged, refuting the claim at this input. -/
theorem request_pin_mutates_on_missing_pin :
    request_pin freshClient (HttpResult.response 200 (some pinPayloadMissingPin)) =
      Except.ok (false, { freshClient with authorization_code := Json.str "AUTH123" }) ∧
    ({ freshClient with authorization_code := Json.str "AUTH123" } : EcobeeState).authorization_code ≠
      freshClient.authorization_code := by
  exact ⟨rfl, fun h => Json.noConfusion h⟩

/-- C4 amended: on a success response whose payload is missing `code` or
`ecobeePin`, `request_pin` returns false; `pin`, `access_token`,
`refresh_token` and the persisted config are unchanged; the state is
fully unchanged when `code` is absent, but when `code` is present (and
only `ecobeePin` is missing) `authorization_code` is set to the
payload's `code` before the failure. -/
theorem request_pin_missing_field_behavior (s : EcobeeState) (status : Nat)
    (payload : Json) (hs : isHttpErrorStatus status = false)
    (hmiss : payload.getField "code" = none ∨ payload.getField "ecobeePin" = none) :
    ∃ s1, request_pin s (HttpResult.response status (some payload)) =
        Except.ok (false, s1) ∧
      s1.pin = s.pin ∧ s1.access_token = s.access_token ∧
      s1.refresh_token = s.refresh_token ∧ s1.config = s.config ∧
      (payload.getField "code" = none → s1 = s) ∧
      (∀ c, payload.getField "code" = some c → s1.authorization_code = c) := by
  have hrun : runRequest true (HttpResult.response status (some payload)) =
      Except.ok (some payload) := by
    simp [runRequest, requestOutcome, hs]
  rcases hcode : payload.getField "code" with _ | c
  · refine ⟨s, ?_, rfl, rfl, rfl, rfl, fun _ => rfl, ?_⟩
    · simp [request_pin, hrun, hcode]
    · intro c hc
      exact Option.noConfusion hc
  · have hpin : payload.getField "ecobeePin" = none := by
      rcases hmiss with h | h
      · exact absurd (h.symm.trans hcode) (fun hx => Option.noConfusion hx)
      · exact h
    refine ⟨{ s with authorization_code := c }, ?_, rfl, rfl, rfl, rfl, ?_, ?_⟩
    · simp [request_pin, hrun, hcode, hpin]
    · intro h
      exact Option.noConfusion h
    · intro c2 hc2
      exact Option.some.inj hc2

/-- C4 witness: the amended statement at the concrete malformed payload
(`code` present, `ecobeePin` absent). -/
theorem request_pin_missing_field_behavior_witness :
    ∃ s1, request_pin freshClient (HttpResult.response 200 (some pinPayloadMissingPin)) =
        Except.ok (false, s1) ∧
      s1.pin = freshClient.pin ∧ s1.access_token = freshClient.access_token ∧
      s1.refresh_token = freshClient.refresh_token ∧ s1.config = freshClient.config ∧
      (pinPayloadMissingPin.getField "code" = none → s1 = freshClient) ∧
      (∀ c, pinPayloadMissingPin.getField "code" = some c → s1.authorization_code = c) := by
  exact request_pin_missing_field_behavior freshClient 200 pinPayloadMissingPin
    (by decide) (Or.inr rfl)

/-- C5 counterexample: a non-auth 500 response with `status.code = 14`
makes `get_thermostats` propagate `ExpiredTokenError` instead of
returning false, refuting "never an exception-like propagation". -/
theorem get_thermostats_raises_on_expired :
    get_thermostats regClient (HttpResult.response 500 (some code14Body)) =
      Except.error RaisedError.expiredTokenError ∧
    get_thermostats regClient (HttpResult.response 500 (some code14Body)) ≠
      Except.ok (false, regClient) := by
  exact ⟨rfl, fun h => Except.noConfusion h⟩

/-- C5 amended: every `get_thermostats` outcome either replaces the
registry wholesale (returning true), returns false with the whole state
unchanged, or propagates a raised error — `InvalidTokenError`,
`ExpiredTokenError`, or the uncaught `AttributeError` from a non-dict
error payload on a 500 — in which case no field of the state is
assigned; in particular a transport timeout returns false with the state
unchanged. -/
theorem get_thermostats_outcomes (s : EcobeeState) (r : HttpResult) :
    ((∃ tl, get_thermostats s r = Except.ok (true, { s with thermostats := tl })) ∨
     get_thermostats s r = Except.ok (false, s) ∨
     get_thermostats s r = Except.error RaisedError.invalidTokenError ∨
     get_thermostats s r = Except.error RaisedError.expiredTokenError ∨
     get_thermostats s r = Except.error RaisedError.attributeError) ∧
    get_thermostats s HttpResult.timeout = Except.ok (false, s) := by
  constructor
  · rcases ho : requestOutcome false r with p | _ | _ | _ | msg
    · rcases hg : p.getField "thermostatList" with _ | tl
      · exact Or.inr (Or.inl (by simp [get_thermostats, runRequest, ho, hg]))
      · exact Or.inl ⟨tl, by simp [get_thermostats, runRequest, ho, hg]⟩
    · exact Or.inr (Or.inr (Or.inl (by simp [get_thermostats, runRequest, ho])))
    · exact Or.inr (Or.inr (Or.inr (Or.inl (by simp [get_thermostats, runRequest, ho]))))
    · exact Or.inr (Or.inr (Or.inr (Or.inr (by simp [get_thermostats, runRequest, ho]))))
    · exact Or.inr (Or.inl (by simp [get_thermostats, runRequest, ho, Json.getField]))
  · rfl

/-- C6: whenever `send_message` transmits a body, that body's function
list carries a `sendMessage` whose `text` is exactly the first 500
characters of the input message. -/
theorem send_message_truncates (s : EcobeeState) (index : Nat) (message : String)
    (body : Json) (h : send_message s index message = UpdateCall.transmitted body) :
    body.getField "functions" =
      some (Json.arr [Json.obj [("type", Json.str "sendMessage"),
        ("params", Json.obj [("text",
          Json.str (String.mk (message.toList.take 500)))])]]) := by
  rcases hid : registryIdentifier s index with _ | ident
  · simp [send_message, post_update_call, post_update_body, hid] at h
  · simp [send_message, post_update_call, post_update_body, hid, Json.pyTruthy] at h
    rw [← h]
    simp [Json.getField, send_message_func, pyTake500]

/-- C6 witness: a 600-character message is transmitted as exactly its
first 500 characters. -/
theorem send_message_truncates_witness :
    (Json.obj [("selection",
        Json.obj [("selectionType", Json.str "thermostats"),
                  ("selectionMatch", Json.str "T1")]),
      ("functions", Json.arr [send_message_func msg600])]).getField "functions" =
      some (Json.arr [Json.obj [("type", Json.str "sendMessage"),
        ("params", Json.obj [("text",
          Json.str (String.mk (msg600.toList.take 500)))])]]) ∧
    String.mk (msg600.toList.take 500) = String.mk (List.replicate 500 'a') := by
  refine ⟨send_message_truncates regClient 0 msg600 _ rfl, ?_⟩
  have h1 : msg600.toList = List.replicate 600 'a' := rfl
  rw [h1, List.take_replicate]
  norm_num

/-- C7: the source of `set_hold_temp` passes the keyword `functions=` to
`post_update`, whose keyword-only parameters are `props` and `funcs`, so
every `set_hold_temp` call (here `cool_temp=78, heat_temp=68`) raises
`TypeError` and transmits nothing; the sibling hold-setting operation
`set_fan_mode` (which uses `funcs=`) does serialize the temperatures as
`coolHoldTemp=780, heatHoldTemp=680`. -/
theorem set_hold_temp_keyword_bug :
    set_hold_temp regClient 0 78 68 "nextTransition" "2" =
      UpdateCall.typeErrorUnexpectedKeyword "functions" ∧
    set_fan_mode regClient 0 "auto" 78 68 "nextTransition" =
      UpdateCall.transmitted (Json.obj [("selection",
        Json.obj [("selectionType", Json.str "thermostats"),
                  ("selectionMatch", Json.str "T1")]),
        ("functions", Json.arr [Json.obj [("type", Json.str "setHold"),
          ("params", Json.obj [("holdType", Json.str "nextTransition"),
                               ("coolHoldTemp", Json.num 780),
                               ("heatHoldTemp", Json.num 680),
                               ("fan", Json.str "auto")])]])]) := by
  exact ⟨rfl, rfl⟩

/-- C9: when a `get_thermostats` call succeeds, repeating it with the
identical transport result succeeds again and leaves the state — in
particular the Device Registry — content-equal: replacement is
wholesale. -/
theorem get_thermostats_idempotent (s s1 : EcobeeState) (r : HttpResult)
    (h : get_thermostats s r = Except.ok (true, s1)) :
    get_thermostats s1 r = Except.ok (true, s1) := by
  rcases ho : requestOutcome false r with p | _ | _ | _ | msg
  · rcases hg : p.getField "thermostatList" with _ | tl
    · simp [get_thermostats, runRequest, ho, hg] at h
    · simp [get_thermostats, runRequest, ho, hg] at h ⊢
      rw [← h]
  · simp [get_thermostats, runRequest, ho] at h
  · simp [get_thermostats, runRequest, ho] at h
  · simp [get_thermostats, runRequest, ho] at h
  · simp [get_thermostats, runRequest, ho, Json.getField] at h

/-- C9 witness: fetching the same one-thermostat success payload twice
leaves the registry equal to the payload's `thermostatList` both
times. -/
theorem get_thermostats_idempotent_witness :
    get_thermostats regClient (HttpResult.response 200
      (some (Json.obj [("thermostatList",
        Json.arr [Json.obj [("identifier", Json.str "T1")]])]))) =
      Except.ok (true, regClient) := by
  exact get_thermostats_idempotent {} regClient _ rfl

/-- C10: `_write_config` writes a dict whose keys are exactly the five
config keys (api key, access token, refresh token, authorization code,
and the notifications flag rendered as a Python boolean string); the
written dict does not depend on the PIN, so the persisted config never
contains a PIN. -/
theorem write_config_exact_keys (s : EcobeeState) (p : Json) :
    (write_config_dict s).map Prod.fst =
      [ECOBEE_API_KEY, ECOBEE_ACCESS_TOKEN, ECOBEE_REFRESH_TOKEN,
       ECOBEE_AUTHORIZATION_CODE, ECOBEE_OPTIONS_NOTIFICATIONS] ∧
    configLookup (write_config_dict s) ECOBEE_OPTIONS_NOTIFICATIONS =
      some (Json.str (pyBoolStr s.include_notifications)) ∧
    write_config_dict { s with pin := p } = write_config_dict s := by
  exact ⟨rfl, rfl, rfl⟩

end Pyecobee
